import Mathlib

set_option linter.unreachableTactic false
set_option linter.unusedTactic false

/-!
Verification of the `ace_step` repository: a shallow embedding of
`src/ace_endpoint.py` (the ngrok ingress launcher) and
`src/scripts/test_lm_endpoints.py` (the sequential HTTP test runner),
together with proofs of the specification claims about them.

Modelling conventions:
* Parsed JSON documents are values of the inductive type `JValue`;
  Python `None` and JSON `null` are both `JValue.null` (in CPython they
  are the same object after `json.loads`).  JSON numbers are modelled as
  integers (the payloads and codes involved are integral; no claim
  touches floating point).
* An HTTP exchange (`requests.get`/`requests.post` followed by
  `resp.json()`) is an oracle value of type `HttpResult`: either a
  response with a status code and a parse outcome, a
  `requests.ConnectionError`, or any other exception (timeouts
  included), each carrying the exception text `str(e)`.
* The runner's mutable attributes (`passed`, `failed`, `skipped`,
  `results`, `base_url`, `api_key`) are the fields of `RunnerState`;
  console printing is modelled by the `output` event list, recording the
  per-test result lines and the `_pp` pretty-printed blocks (the purely
  decorative banner prints of `run_all` are not tracked).
* Each test method becomes a total function from its oracle inputs and
  the pre-state to the post-state; the `try/except` structure of the
  source is reflected in the match arms that route exception values to
  `FAIL` records.
-/

/-- Parsed JSON values (the result of `resp.json()` / the argument of
`json.dumps`).  Python `None` is identified with `null`. -/
inductive JValue where
  | null : JValue
  | bool (b : Bool) : JValue
  | num (n : Int) : JValue
  | str (s : String) : JValue
  | arr (elems : List JValue) : JValue
  | obj (fields : List (String × JValue)) : JValue

mutual
/-- Structural equality of JSON values (Python `==` on parsed JSON). -/
def beqJ : JValue → JValue → Bool
  | .null, .null => true
  | .bool a, .bool b => a == b
  | .num a, .num b => a == b
  | .str a, .str b => a == b
  | .arr as, .arr bs => beqJArr as bs
  | .obj as, .obj bs => beqJObj as bs
  | _, _ => false

/-- Structural equality of JSON arrays. -/
def beqJArr : List JValue → List JValue → Bool
  | [], [] => true
  | a :: as, b :: bs => beqJ a b && beqJArr as bs
  | _, _ => false

/-- Structural equality of JSON object field lists. -/
def beqJObj : List (String × JValue) → List (String × JValue) → Bool
  | [], [] => true
  | (k1, v1) :: as, (k2, v2) :: bs => k1 == k2 && beqJ v1 v2 && beqJObj as bs
  | _, _ => false
end

mutual
/-- `beqJ` decides propositional equality. -/
theorem beqJ_eq : (a b : JValue) → (beqJ a b = true ↔ a = b)
  | .null, b => by cases b <;> simp [beqJ]
  | .bool x, b => by cases b <;> simp [beqJ]
  | .num x, b => by cases b <;> simp [beqJ]
  | .str x, b => by cases b <;> simp [beqJ]
  | .arr as, b => by
      cases b <;> simp only [beqJ] <;> simp
      exact beqJArr_eq as _
  | .obj as, b => by
      cases b <;> simp only [beqJ] <;> simp
      exact beqJObj_eq as _

/-- `beqJArr` decides propositional equality. -/
theorem beqJArr_eq : (as bs : List JValue) → (beqJArr as bs = true ↔ as = bs)
  | [], [] => by simp [beqJArr]
  | [], _ :: _ => by simp [beqJArr]
  | _ :: _, [] => by simp [beqJArr]
  | a :: as, b :: bs => by
      simp [beqJArr, beqJ_eq a b, beqJArr_eq as bs]

/-- `beqJObj` decides propositional equality. -/
theorem beqJObj_eq : (as bs : List (String × JValue)) → (beqJObj as bs = true ↔ as = bs)
  | [], [] => by simp [beqJObj]
  | [], _ :: _ => by simp [beqJObj]
  | _ :: _, [] => by simp [beqJObj]
  | (k1, v1) :: as, (k2, v2) :: bs => by
      simp [beqJObj, beqJ_eq v1 v2, beqJObj_eq as bs, and_assoc]
end

instance : BEq JValue := ⟨beqJ⟩

instance : LawfulBEq JValue where
  eq_of_beq h := (beqJ_eq _ _).mp h
  rfl := (beqJ_eq _ _).mpr rfl

instance : DecidableEq JValue :=
  fun a b => decidable_of_iff (beqJ a b = true) (beqJ_eq a b)

/-- Python type name of a value, as used in `AttributeError` texts. -/
def pyTypeName : JValue → String
  | .null => "NoneType"
  | .bool _ => "bool"
  | .num _ => "int"
  | .str _ => "str"
  | .arr _ => "list"
  | .obj _ => "dict"

/-- `str(e)` of the `AttributeError` raised by `x.get(...)` when `x` is
not a dict. -/
def attrErrorGet (j : JValue) : String :=
  "\x27" ++ pyTypeName j ++ "\x27 object has no attribute \x27get\x27"

/-- `d.get(k)` on a dict given by its field list: the first binding of
`k`, or `null` (Python `None`) when the key is absent. -/
def dGet (fields : List (String × JValue)) (k : String) : JValue :=
  (fields.lookup k).getD .null

/-- `d.get(k, default)` on a dict given by its field list. -/
def dGetD (fields : List (String × JValue)) (k : String) (default : JValue) : JValue :=
  (fields.lookup k).getD default

/-- Escape one character for JSON string output (the cases produced by
the payloads in scope; `json.dumps`-style). -/
def jsonEscapeChar (c : Char) : String :=
  if c = '"' then "\\\""
  else if c = '\\' then "\\\\"
  else if c = '\n' then "\\n"
  else if c = '\t' then "\\t"
  else if c = '\r' then "\\r"
  else String.singleton c

/-- Escape a string for JSON output. -/
def jsonEscape (s : String) : String :=
  s.foldl (fun acc c => acc ++ jsonEscapeChar c) ""

mutual
/-- `json.dumps(v)` with CPython's default separators `", "` and `": "`. -/
def jsonDumps : JValue → String
  | .null => "null"
  | .bool true => "true"
  | .bool false => "false"
  | .num n => toString n
  | .str s => "\"" ++ jsonEscape s ++ "\""
  | .arr elems => "[" ++ String.intercalate ", " (jsonDumpsList elems) ++ "]"
  | .obj fields => "\x7b" ++ String.intercalate ", " (jsonDumpsFields fields) ++ "\x7d"

/-- Serialize the elements of a JSON array. -/
def jsonDumpsList : List JValue → List String
  | [] => []
  | v :: vs => jsonDumps v :: jsonDumpsList vs

/-- Serialize the fields of a JSON object. -/
def jsonDumpsFields : List (String × JValue) → List String
  | [] => []
  | (k, v) :: fs => ("\"" ++ jsonEscape k ++ "\": " ++ jsonDumps v) :: jsonDumpsFields fs
end

mutual
/-- Python `repr(v)` of a parsed JSON value (string escaping inside
`repr` is simplified to plain quoting; no claim depends on it). -/
def pyRepr : JValue → String
  | .null => "None"
  | .bool true => "True"
  | .bool false => "False"
  | .num n => toString n
  | .str s => "\x27" ++ s ++ "\x27"
  | .arr elems => "[" ++ String.intercalate ", " (pyReprList elems) ++ "]"
  | .obj fields => "\x7b" ++ String.intercalate ", " (pyReprFields fields) ++ "\x7d"

/-- `repr` of the elements of a list. -/
def pyReprList : List JValue → List String
  | [] => []
  | v :: vs => pyRepr v :: pyReprList vs

/-- `repr` of the fields of a dict. -/
def pyReprFields : List (String × JValue) → List String
  | [] => []
  | (k, v) :: fs => ("\x27" ++ k ++ "\x27: " ++ pyRepr v) :: pyReprFields fs
end

/-- Python `str(v)` as used by f-string interpolation: identity on
strings, `repr`-like rendering otherwise. -/
def pyStr : JValue → String
  | .str s => s
  | v => pyRepr v

/-- Python `str(b)` of a boolean: `True` / `False`. -/
def pyBool (b : Bool) : String :=
  if b then "True" else "False"

/-- Python truthiness of a parsed JSON value. -/
def pyTruthy : JValue → Bool
  | .null => false
  | .bool b => b
  | .num n => n != 0
  | .str s => !s.isEmpty
  | .arr elems => !elems.isEmpty
  | .obj fields => !fields.isEmpty

/-- Python truthiness of an optional string (`os.getenv` result or an
optional CLI argument): `None` and the empty string are falsy. -/
def truthyOpt : Option String → Bool
  | none => false
  | some s => !s.isEmpty

/-! ## The test runner state (`TestRunner` of `scripts/test_lm_endpoints.py`) -/

/-- One entry of `TestRunner.results`: `{"name": ..., "status": ..., "detail": ...}`. -/
structure TestRecord where
  name : String
  status : String
  detail : String
deriving DecidableEq

/-- One observable console event of the runner: the per-test result line
printed by `_record`, or the pretty-printed block printed by `_pp`. -/
inductive OutputEvent where
  | recordLine (name status detail : String) : OutputEvent
  | ppBlock (label : String) (obj : JValue) : OutputEvent
deriving DecidableEq

/-- The mutable attributes of a `TestRunner` instance, plus the `output`
log of console events. -/
structure RunnerState where
  base_url : String
  api_key : Option String
  passed : Nat
  failed : Nat
  skipped : Nat
  results : List TestRecord
  output : List OutputEvent
deriving DecidableEq

/-- Python `base_url.rstrip("/")`: drop the trailing slashes
(structurally recursive so that concrete states evaluate). -/
def rstripSlash (s : String) : String :=
  String.mk ((s.data.reverse.dropWhile (fun c => c == '/')).reverse)

/-- `TestRunner.__init__`: strips trailing slashes from the base URL and
zeroes the counters. -/
def initRunner (base_url : String) (api_key : Option String) : RunnerState :=
  { base_url := rstripSlash base_url
    api_key := api_key
    passed := 0
    failed := 0
    skipped := 0
    results := []
    output := [] }

/-- `TestRunner._record`: append one result entry, bump exactly one of
the three counters (`PASS` → passed, `FAIL` → failed, anything else →
skipped), and print the result line. -/
def _record (s : RunnerState) (name status detail : String) : RunnerState :=
  let s1 : RunnerState := { s with results := s.results ++ [⟨name, status, detail⟩] }
  let s2 : RunnerState :=
    if status == "PASS" then { s1 with passed := s1.passed + 1 }
    else if status == "FAIL" then { s1 with failed := s1.failed + 1 }
    else { s1 with skipped := s1.skipped + 1 }
  { s2 with output := s2.output ++ [.recordLine name status detail] }

/-- `_pp`: pretty-print a labelled JSON object to the console. -/
def _pp (s : RunnerState) (label : String) (obj : JValue) : RunnerState :=
  { s with output := s.output ++ [.ppBlock label obj] }

/-! ## The oracle for one HTTP exchange

A test's call of `requests.get`/`requests.post` followed by
`resp.json()` is driven by an oracle value: the server's behaviour and
the network are outside the program. -/

/-- Outcome of one HTTP exchange.  `resp code body` is a returned
response with HTTP status `code` whose `resp.json()` either parses to a
`JValue` or raises (`Except.error` with `str(e)`); `connErr` is a raised
`requests.ConnectionError`; `err` is any other exception raised by the
request call (timeouts included).  Each error carries `str(e)`. -/
inductive HttpResult where
  | resp (statusCode : Nat) (body : Except String JValue) : HttpResult
  | connErr (msg : String) : HttpResult
  | err (msg : String) : HttpResult

/-- Outcome of `open(audio_file, "rb")` in the file-upload test. -/
inductive OpenResult where
  | ok : OpenResult
  | notFound : OpenResult
  | err (msg : String) : OpenResult

/-! ## The ingress launcher (`ace_endpoint.py`) -/

/-- The arguments the launcher passes to `ngrok.forward`. -/
structure ForwardArgs where
  port : Nat
  authtoken : Option String
  domain : Option String
  traffic_policy : Option String
deriving DecidableEq

/-- The traffic-policy object built by `ace_endpoint.py` when both
credentials are present (the dict literal of lines 16-31). -/
def policyObj (auth_username auth_password : String) : JValue :=
  .obj [("on_http_request", .arr [
    .obj [("actions", .arr [
      .obj [("type", .str "basic-auth"),
            ("config", .obj [("credentials", .arr [
              .str (auth_username ++ ":" ++ auth_password)])])]])]])]

/-- The warning printed when the launcher proceeds without a policy. -/
def unprotectedWarning : String :=
  "WARNING: No AUTH_USERNAME or AUTH_PASSWORD found in .ngrok_env. API will be unprotected!"

/-- The launcher body of `ace_endpoint.py` up to the `ngrok.forward`
call: from the four environment lookups (`AUTH_USERNAME`,
`AUTH_PASSWORD`, `NGROK_AUTHTOKEN`, `NGROK_DOMAIN`, each `none` when
unset), produce the arguments passed to `ngrok.forward` and the list of
lines printed.  `if auth_username and auth_password:` is Python
truthiness: it takes the policy branch exactly when both are set and
non-empty. -/
def launcherRun (auth_username auth_password ngrok_authtoken ngrok_domain : Option String) :
    ForwardArgs × List String :=
  match auth_username, auth_password with
  | some u, some p =>
    if !u.isEmpty && !p.isEmpty then
      (⟨8001, ngrok_authtoken, ngrok_domain, some (jsonDumps (policyObj u p))⟩,
       ["Basic auth enabled for user: " ++ u])
    else
      (⟨8001, ngrok_authtoken, ngrok_domain, none⟩, [unprotectedWarning])
  | _, _ =>
      (⟨8001, ngrok_authtoken, ngrok_domain, none⟩, [unprotectedWarning])

/-! ## The test methods

Each test is a total function of its oracle inputs and the pre-state.
The `try/except` of the source is reflected directly: every arm that
corresponds to a raised exception records a `FAIL` whose detail is the
exception text, mirroring `except Exception as e: self._record(name,
"FAIL", str(e))` — with the two bespoke handlers of `test_health`
(`requests.ConnectionError`) and `test_understand_file_upload`
(`FileNotFoundError`) modelled by their fixed messages. -/

/-- `test_health` (lines 388-401): `GET /health` with timeout 10; PASS
iff HTTP 200 and JSON `code == 200`. -/
def test_health (r : HttpResult) (s : RunnerState) : RunnerState :=
  let name := "health: server reachable"
  match r with
  | .connErr _ => _record s name "FAIL" ("cannot connect to " ++ s.base_url)
  | .err e => _record s name "FAIL" e
  | .resp statusCode body =>
    match body with
    | .error e => _record s name "FAIL" e
    | .ok data =>
      -- `resp.status_code == 200 and data.get("code") == 200`: the
      -- right conjunct is only evaluated when the status code is 200,
      -- and raises AttributeError when the body is not a dict.
      if statusCode ≠ 200 then
        _record s name "FAIL" ("unexpected response: " ++ pyRepr data)
      else
        match data with
        | .obj fields =>
          if dGet fields "code" = JValue.num 200 then
            _record s name "PASS" ""
          else
            _record s name "FAIL" ("unexpected response: " ++ pyRepr data)
        | j => _record s name "FAIL" (attrErrorGet j)

/-- `test_inspire_basic` (lines 82-104): `POST /lm/inspire` with a
simple query; checks status code, JSON code, and the presence of
`caption`, `lyrics`, `bpm`, `duration` under `data`. -/
def test_inspire_basic (r : HttpResult) (s : RunnerState) : RunnerState :=
  let name := "inspire: basic query"
  match r with
  | .connErr e | .err e => _record s name "FAIL" e
  | .resp statusCode body =>
    match body with
    | .error e => _record s name "FAIL" e
    | .ok data =>
      -- `if resp.status_code != 200 or data.get("code") != 200:`
      if statusCode ≠ 200 then
        _record s name "FAIL" ("status=" ++ toString statusCode ++ ", body=" ++ jsonDumps data)
      else
        match data with
        | .obj fields =>
          if dGet fields "code" ≠ JValue.num 200 then
            _record s name "FAIL" ("status=" ++ toString statusCode ++ ", body=" ++ jsonDumps data)
          else
            match fields.lookup "data" with
            | none => _record s name "FAIL" "\x27data\x27"   -- KeyError from data["data"]
            | some d =>
              match d with
              | .obj df =>
                if !pyTruthy (dGet df "caption") then
                  _record s name "FAIL" "missing caption"
                else if dGet df "lyrics" = JValue.null then
                  _record s name "FAIL" "missing lyrics key"
                else if dGet df "bpm" = JValue.null then
                  _record s name "FAIL" "missing bpm"
                else if dGet df "duration" = JValue.null then
                  _record s name "FAIL" "missing duration"
                else
                  _record (_pp s name d) name "PASS" ""
              | j => _record s name "FAIL" (attrErrorGet j)
        | j => _record s name "FAIL" (attrErrorGet j)

/-- `test_inspire_instrumental` (lines 106-130): no status-code check;
JSON code check, `caption` assert, pretty-print, PASS. -/
def test_inspire_instrumental (r : HttpResult) (s : RunnerState) : RunnerState :=
  let name := "inspire: instrumental"
  match r with
  | .connErr e | .err e => _record s name "FAIL" e
  | .resp _ body =>
    match body with
    | .error e => _record s name "FAIL" e
    | .ok data =>
      match data with
      | .obj fields =>
        if dGet fields "code" ≠ JValue.num 200 then
          _record s name "FAIL"
            ("code=" ++ pyStr (dGet fields "code") ++ ", error=" ++ pyStr (dGet fields "error"))
        else
          match fields.lookup "data" with
          | none => _record s name "FAIL" "\x27data\x27"
          | some d =>
            match d with
            | .obj df =>
              if !pyTruthy (dGet df "caption") then
                _record s name "FAIL" "missing caption"
              else
                _record (_pp s name d) name "PASS" ""
            | j => _record s name "FAIL" (attrErrorGet j)
      | j => _record s name "FAIL" (attrErrorGet j)

/-- `test_inspire_with_language` (lines 132-153): JSON code check, no
asserts, pretty-print, PASS. -/
def test_inspire_with_language (r : HttpResult) (s : RunnerState) : RunnerState :=
  let name := "inspire: vocal_language=ja"
  match r with
  | .connErr e | .err e => _record s name "FAIL" e
  | .resp _ body =>
    match body with
    | .error e => _record s name "FAIL" e
    | .ok data =>
      match data with
      | .obj fields =>
        if dGet fields "code" ≠ JValue.num 200 then
          _record s name "FAIL"
            ("code=" ++ pyStr (dGet fields "code") ++ ", error=" ++ pyStr (dGet fields "error"))
        else
          match fields.lookup "data" with
          | none => _record s name "FAIL" "\x27data\x27"
          | some d => _record (_pp s name d) name "PASS" ""
      | j => _record s name "FAIL" (attrErrorGet j)

/-- `test_inspire_missing_query` (lines 155-171): expects JSON code 400. -/
def test_inspire_missing_query (r : HttpResult) (s : RunnerState) : RunnerState :=
  let name := "inspire: missing query (expect 400)"
  match r with
  | .connErr e | .err e => _record s name "FAIL" e
  | .resp _ body =>
    match body with
    | .error e => _record s name "FAIL" e
    | .ok data =>
      match data with
      | .obj fields =>
        if dGet fields "code" = JValue.num 400 then
          _record s name "PASS" ("error=" ++ pyStr (dGet fields "error"))
        else
          _record s name "FAIL" ("expected code=400, got code=" ++ pyStr (dGet fields "code"))
      | j => _record s name "FAIL" (attrErrorGet j)

/-- `test_inspire_seed_reproducibility` (lines 173-218): two identical
seeded calls; on both `code == 200` the caption and lyrics texts are
compared, a mismatch being recorded as a soft FAIL with both payloads
pretty-printed.  Request and parse ordering (the second request is only
issued when the first returned, both bodies are parsed after both
requests) and the f-string evaluation inside the early FAIL detail are
preserved. -/
def test_inspire_seed_reproducibility (r1 r2 : HttpResult) (s : RunnerState) : RunnerState :=
  let name := "inspire: seed reproducibility"
  match r1 with
  | .connErr e | .err e => _record s name "FAIL" e
  | .resp _ body1 =>
    match r2 with
    | .connErr e | .err e => _record s name "FAIL" e
    | .resp _ body2 =>
      match body1 with
      | .error e => _record s name "FAIL" e
      | .ok d1 =>
        match body2 with
        | .error e => _record s name "FAIL" e
        | .ok d2 =>
          match d1 with
          | .obj f1 =>
            if dGet f1 "code" ≠ JValue.num 200 then
              -- short-circuit of `or`: d2.get("code") is skipped, but the
              -- detail f-string still evaluates d2.get("error")
              match d2 with
              | .obj f2 =>
                _record s name "FAIL"
                  ("one or both calls failed: " ++ pyStr (dGet f1 "error") ++ ", " ++ pyStr (dGet f2 "error"))
              | j => _record s name "FAIL" (attrErrorGet j)
            else
              match d2 with
              | .obj f2 =>
                if dGet f2 "code" ≠ JValue.num 200 then
                  _record s name "FAIL"
                    ("one or both calls failed: " ++ pyStr (dGet f1 "error") ++ ", " ++ pyStr (dGet f2 "error"))
                else
                  match f1.lookup "data" with
                  | none => _record s name "FAIL" "\x27data\x27"
                  | some dd1 =>
                    match dd1 with
                    | .obj df1 =>
                      match f2.lookup "data" with
                      | none => _record s name "FAIL" "\x27data\x27"
                      | some dd2 =>
                        match dd2 with
                        | .obj df2 =>
                          let caption1 := dGetD df1 "caption" (JValue.str "")
                          let caption2 := dGetD df2 "caption" (JValue.str "")
                          let lyrics1 := dGetD df1 "lyrics" (JValue.str "")
                          let lyrics2 := dGetD df2 "lyrics" (JValue.str "")
                          if beqJ caption1 caption2 && beqJ lyrics1 lyrics2 then
                            _record s name "PASS" "captions and lyrics match"
                          else
                            _pp (_pp (_record s name "FAIL"
                                ("outputs differ (may be expected with vllm backend). caption match="
                                  ++ pyBool (beqJ caption1 caption2)
                                  ++ ", lyrics match=" ++ pyBool (beqJ lyrics1 lyrics2)))
                              (name ++ " — call 1") dd1)
                              (name ++ " — call 2") dd2
                        | j => _record s name "FAIL" (attrErrorGet j)
                    | j => _record s name "FAIL" (attrErrorGet j)
              | j => _record s name "FAIL" (attrErrorGet j)
          | j => _record s name "FAIL" (attrErrorGet j)

/-- `test_format_basic` (lines 222-245): JSON code check, `caption` and
`bpm` asserts, pretty-print, PASS. -/
def test_format_basic (r : HttpResult) (s : RunnerState) : RunnerState :=
  let name := "format: basic"
  match r with
  | .connErr e | .err e => _record s name "FAIL" e
  | .resp _ body =>
    match body with
    | .error e => _record s name "FAIL" e
    | .ok data =>
      match data with
      | .obj fields =>
        if dGet fields "code" ≠ JValue.num 200 then
          _record s name "FAIL"
            ("code=" ++ pyStr (dGet fields "code") ++ ", error=" ++ pyStr (dGet fields "error"))
        else
          match fields.lookup "data" with
          | none => _record s name "FAIL" "\x27data\x27"
          | some d =>
            match d with
            | .obj df =>
              if !pyTruthy (dGet df "caption") then
                _record s name "FAIL" "missing caption"
              else if dGet df "bpm" = JValue.null then
                _record s name "FAIL" "missing bpm"
              else
                _record (_pp s name d) name "PASS" ""
            | j => _record s name "FAIL" (attrErrorGet j)
      | j => _record s name "FAIL" (attrErrorGet j)

/-- `test_format_with_constraints` (lines 247-274): JSON code check, no
asserts, pretty-print, PASS. -/
def test_format_with_constraints (r : HttpResult) (s : RunnerState) : RunnerState :=
  let name := "format: with constraints"
  match r with
  | .connErr e | .err e => _record s name "FAIL" e
  | .resp _ body =>
    match body with
    | .error e => _record s name "FAIL" e
    | .ok data =>
      match data with
      | .obj fields =>
        if dGet fields "code" ≠ JValue.num 200 then
          _record s name "FAIL"
            ("code=" ++ pyStr (dGet fields "code") ++ ", error=" ++ pyStr (dGet fields "error"))
        else
          match fields.lookup "data" with
          | none => _record s name "FAIL" "\x27data\x27"
          | some d => _record (_pp s name d) name "PASS" ""
      | j => _record s name "FAIL" (attrErrorGet j)

/-- `test_format_caption_only` (lines 276-293): JSON code check,
pretty-print of `data["data"]`, PASS. -/
def test_format_caption_only (r : HttpResult) (s : RunnerState) : RunnerState :=
  let name := "format: caption only"
  match r with
  | .connErr e | .err e => _record s name "FAIL" e
  | .resp _ body =>
    match body with
    | .error e => _record s name "FAIL" e
    | .ok data =>
      match data with
      | .obj fields =>
        if dGet fields "code" ≠ JValue.num 200 then
          _record s name "FAIL"
            ("code=" ++ pyStr (dGet fields "code") ++ ", error=" ++ pyStr (dGet fields "error"))
        else
          match fields.lookup "data" with
          | none => _record s name "FAIL" "\x27data\x27"
          | some d => _record (_pp s name d) name "PASS" ""
      | j => _record s name "FAIL" (attrErrorGet j)

/-- `test_format_missing_both` (lines 295-311): expects JSON code 400. -/
def test_format_missing_both (r : HttpResult) (s : RunnerState) : RunnerState :=
  let name := "format: missing both (expect 400)"
  match r with
  | .connErr e | .err e => _record s name "FAIL" e
  | .resp _ body =>
    match body with
    | .error e => _record s name "FAIL" e
    | .ok data =>
      match data with
      | .obj fields =>
        if dGet fields "code" = JValue.num 400 then
          _record s name "PASS" ("error=" ++ pyStr (dGet fields "error"))
        else
          _record s name "FAIL" ("expected code=400, got code=" ++ pyStr (dGet fields "code"))
      | j => _record s name "FAIL" (attrErrorGet j)

/-- `test_understand_no_input` (lines 315-331): expects JSON code 400. -/
def test_understand_no_input (r : HttpResult) (s : RunnerState) : RunnerState :=
  let name := "understand: no input (expect 400)"
  match r with
  | .connErr e | .err e => _record s name "FAIL" e
  | .resp _ body =>
    match body with
    | .error e => _record s name "FAIL" e
    | .ok data =>
      match data with
      | .obj fields =>
        if dGet fields "code" = JValue.num 400 then
          _record s name "PASS" ("error=" ++ pyStr (dGet fields "error"))
        else
          _record s name "FAIL" ("expected code=400, got code=" ++ pyStr (dGet fields "code"))
      | j => _record s name "FAIL" (attrErrorGet j)

/-- `test_understand_file_upload` (lines 333-362): SKIP without an audio
file (`if not audio_file:` — `None` or empty string); otherwise
`open(audio_file, "rb")` may raise `FileNotFoundError` (bespoke FAIL
message) or another error, then the multipart POST runs with timeout
300. -/
def test_understand_file_upload (audio_file : Option String) (op : OpenResult)
    (r : HttpResult) (s : RunnerState) : RunnerState :=
  let name := "understand: file upload"
  match audio_file with
  | none => _record s name "SKIP" "no --audio-file provided"
  | some af =>
    if af.isEmpty then _record s name "SKIP" "no --audio-file provided"
    else
      match op with
      | .notFound => _record s name "FAIL" ("audio file not found: " ++ af)
      | .err e => _record s name "FAIL" e
      | .ok =>
        match r with
        | .connErr e | .err e => _record s name "FAIL" e
        | .resp _ body =>
          match body with
          | .error e => _record s name "FAIL" e
          | .ok data =>
            match data with
            | .obj fields =>
              if dGet fields "code" ≠ JValue.num 200 then
                _record s name "FAIL"
                  ("code=" ++ pyStr (dGet fields "code") ++ ", error=" ++ pyStr (dGet fields "error"))
              else
                match fields.lookup "data" with
                | none => _record s name "FAIL" "\x27data\x27"
                | some d =>
                  match d with
                  | .obj df =>
                    if !pyTruthy (dGet df "caption") then
                      _record s name "FAIL" "missing caption"
                    else
                      _record (_pp s name d) name "PASS" ""
                  | j => _record s name "FAIL" (attrErrorGet j)
            | j => _record s name "FAIL" (attrErrorGet j)

/-- `test_understand_audio_path` (lines 364-384): SKIP without an audio
file; otherwise JSON POST with `audio_path`, timeout 300. -/
def test_understand_audio_path (audio_file : Option String) (r : HttpResult)
    (s : RunnerState) : RunnerState :=
  let name := "understand: audio_path"
  match audio_file with
  | none => _record s name "SKIP" "no --audio-file provided"
  | some af =>
    if af.isEmpty then _record s name "SKIP" "no --audio-file provided"
    else
      match r with
      | .connErr e | .err e => _record s name "FAIL" e
      | .resp _ body =>
        match body with
        | .error e => _record s name "FAIL" e
        | .ok data =>
          match data with
          | .obj fields =>
            if dGet fields "code" ≠ JValue.num 200 then
              _record s name "FAIL"
                ("code=" ++ pyStr (dGet fields "code") ++ ", error=" ++ pyStr (dGet fields "error"))
            else
              match fields.lookup "data" with
              | none => _record s name "FAIL" "\x27data\x27"
              | some d => _record (_pp s name d) name "PASS" ""
          | j => _record s name "FAIL" (attrErrorGet j)

/-! ## The whole suite: `run_all` and `main` -/

/-- The oracle for one whole run: the outcome of every HTTP exchange the
suite can issue, and of the `open` call of the file-upload test. -/
structure Oracle where
  health : HttpResult
  inspireBasic : HttpResult
  inspireInstrumental : HttpResult
  inspireLanguage : HttpResult
  inspireMissingQuery : HttpResult
  inspireSeed1 : HttpResult
  inspireSeed2 : HttpResult
  formatBasic : HttpResult
  formatConstraints : HttpResult
  formatCaptionOnly : HttpResult
  formatMissingBoth : HttpResult
  understandNoInput : HttpResult
  understandOpen : OpenResult
  understandUpload : HttpResult
  understandPath : HttpResult

/-- `TestRunner.run_all` (lines 405-449): the health check runs first;
if any failure is recorded at that point the suite aborts with `False`;
otherwise the twelve endpoint tests run in their fixed order and the
run returns `self.failed == 0`. -/
def run_all (o : Oracle) (audio_file : Option String) (s : RunnerState) : Bool × RunnerState :=
  let s := test_health o.health s
  if s.failed > 0 then (false, s)
  else
    let s := test_inspire_basic o.inspireBasic s
    let s := test_inspire_instrumental o.inspireInstrumental s
    let s := test_inspire_with_language o.inspireLanguage s
    let s := test_inspire_missing_query o.inspireMissingQuery s
    let s := test_inspire_seed_reproducibility o.inspireSeed1 o.inspireSeed2 s
    let s := test_format_basic o.formatBasic s
    let s := test_format_with_constraints o.formatConstraints s
    let s := test_format_caption_only o.formatCaptionOnly s
    let s := test_format_missing_both o.formatMissingBoth s
    let s := test_understand_no_input o.understandNoInput s
    let s := test_understand_file_upload audio_file o.understandOpen o.understandUpload s
    let s := test_understand_audio_path audio_file o.understandPath s
    (s.failed == 0, s)

/-- `main` (lines 452-473): build the runner from the CLI arguments, run
the suite, and `sys.exit(0 if ok else 1)`.  Returns the exit code and
the final runner state. -/
def mainRun (o : Oracle) (base_url : String) (api_key audio_file : Option String) :
    Nat × RunnerState :=
  let runner := initRunner base_url api_key
  let res := run_all o audio_file runner
  (if res.1 then 0 else 1, res.2)

/-! ## The HTTP requests the suite issues

Each test issues the fixed request below (the oracle value consumed by
the test function is the outcome of that request).  `timeout` is the
`timeout=` keyword passed to `requests`: `none` would mean the keyword
was omitted (wait forever); every call site in the source passes one
explicitly. -/

/-- One `requests` call as issued by the runner. -/
structure Request where
  method : String
  url : String
  timeout : Option Nat
deriving DecidableEq

/-- The `GET /health` request of `test_health` (line 392). -/
def healthRequest (base_url : String) : Request :=
  ⟨"GET", base_url ++ "/health", some 10⟩

/-- The request of `test_inspire_basic` (lines 86-91). -/
def inspireBasicRequest (base_url : String) : Request :=
  ⟨"POST", base_url ++ "/lm/inspire", some 120⟩

/-- The request of `test_inspire_instrumental` (lines 110-119). -/
def inspireInstrumentalRequest (base_url : String) : Request :=
  ⟨"POST", base_url ++ "/lm/inspire", some 120⟩

/-- The request of `test_inspire_with_language` (lines 136-144). -/
def inspireLanguageRequest (base_url : String) : Request :=
  ⟨"POST", base_url ++ "/lm/inspire", some 120⟩

/-- The request of `test_inspire_missing_query` (lines 159-164). -/
def inspireMissingQueryRequest (base_url : String) : Request :=
  ⟨"POST", base_url ++ "/lm/inspire", some 30⟩

/-- Each of the two identical requests of
`test_inspire_seed_reproducibility` (lines 182-193). -/
def inspireSeedRequest (base_url : String) : Request :=
  ⟨"POST", base_url ++ "/lm/inspire", some 120⟩

/-- The request of `test_format_basic` (lines 226-234). -/
def formatBasicRequest (base_url : String) : Request :=
  ⟨"POST", base_url ++ "/lm/format", some 120⟩

/-- The request of `test_format_with_constraints` (lines 251-264). -/
def formatConstraintsRequest (base_url : String) : Request :=
  ⟨"POST", base_url ++ "/lm/format", some 120⟩

/-- The request of `test_format_caption_only` (lines 280-285). -/
def formatCaptionOnlyRequest (base_url : String) : Request :=
  ⟨"POST", base_url ++ "/lm/format", some 120⟩

/-- The request of `test_format_missing_both` (lines 299-304). -/
def formatMissingBothRequest (base_url : String) : Request :=
  ⟨"POST", base_url ++ "/lm/format", some 30⟩

/-- The request of `test_understand_no_input` (lines 319-324). -/
def understandNoInputRequest (base_url : String) : Request :=
  ⟨"POST", base_url ++ "/lm/understand", some 30⟩

/-- The multipart request of `test_understand_file_upload` (lines
345-350). -/
def understandUploadRequest (base_url : String) : Request :=
  ⟨"POST", base_url ++ "/lm/understand", some 300⟩

/-- The request of `test_understand_audio_path` (lines 371-376). -/
def understandPathRequest (base_url : String) : Request :=
  ⟨"POST", base_url ++ "/lm/understand", some 300⟩

/-! ## Bookkeeping invariants of the recorder -/

/-- Number of `PASS` records in a results list. -/
def passCount (l : List TestRecord) : Nat :=
  l.countP (fun r => r.status == "PASS")

/-- Number of `FAIL` records in a results list. -/
def failCount (l : List TestRecord) : Nat :=
  l.countP (fun r => r.status == "FAIL")

/-- Number of records that are neither `PASS` nor `FAIL` (the recorder
counts these as skipped). -/
def skipCount (l : List TestRecord) : Nat :=
  l.countP (fun r => !(r.status == "PASS") && !(r.status == "FAIL"))

/-- A step of the runner from `s` to `t`: the configuration fields are
untouched, the results log only grows, and each counter grows by
exactly the number of matching appended records.  Every test method is
such a step, and steps compose. -/
def StepOK (s t : RunnerState) : Prop :=
  t.base_url = s.base_url ∧ t.api_key = s.api_key ∧
  ∃ l, t.results = s.results ++ l
    ∧ t.passed = s.passed + passCount l
    ∧ t.failed = s.failed + failCount l
    ∧ t.skipped = s.skipped + skipCount l

theorem stepOK_refl (s : RunnerState) : StepOK s s :=
  ⟨rfl, rfl, [], by simp [passCount, failCount, skipCount]⟩

theorem stepOK_trans {s t u : RunnerState} (h1 : StepOK s t) (h2 : StepOK t u) :
    StepOK s u := by
  obtain ⟨hb1, ha1, l1, hr1, hp1, hf1, hk1⟩ := h1
  obtain ⟨hb2, ha2, l2, hr2, hp2, hf2, hk2⟩ := h2
  refine ⟨hb2.trans hb1, ha2.trans ha1, l1 ++ l2, ?_, ?_, ?_, ?_⟩ <;>
    simp [hr2, hr1, hp2, hp1, hf2, hf1, hk2, hk1,
      passCount, failCount, skipCount, List.countP_append, Nat.add_assoc]

theorem stepOK_record (s : RunnerState) (n st d : String) :
    StepOK s (_record s n st d) := by
  refine ⟨?_, ?_, [⟨n, st, d⟩], ?_, ?_, ?_, ?_⟩ <;>
    cases h1 : st == "PASS" <;> cases h2 : st == "FAIL" <;>
      simp_all [_record, passCount, failCount, skipCount, List.countP_cons]

theorem stepOK_pp (s : RunnerState) (label : String) (obj : JValue) :
    StepOK s (_pp s label obj) :=
  ⟨rfl, rfl, [], by simp [_pp, passCount, failCount, skipCount]⟩

theorem stepOK_test_health (r : HttpResult) (s : RunnerState) :
    StepOK s (test_health r s) := by
  unfold test_health
  cases r <;> dsimp only <;> repeat' split
  all_goals first
    | exact stepOK_record _ _ _ _
    | exact stepOK_trans (stepOK_pp _ _ _) (stepOK_record _ _ _ _)
    | exact stepOK_trans (stepOK_record _ _ _ _)
        (stepOK_trans (stepOK_pp _ _ _) (stepOK_pp _ _ _))

theorem stepOK_test_inspire_basic (r : HttpResult) (s : RunnerState) :
    StepOK s (test_inspire_basic r s) := by
  unfold test_inspire_basic
  cases r <;> dsimp only <;> repeat' split
  all_goals first
    | exact stepOK_record _ _ _ _
    | exact stepOK_trans (stepOK_pp _ _ _) (stepOK_record _ _ _ _)

theorem stepOK_test_inspire_instrumental (r : HttpResult) (s : RunnerState) :
    StepOK s (test_inspire_instrumental r s) := by
  unfold test_inspire_instrumental
  cases r <;> dsimp only <;> repeat' split
  all_goals first
    | exact stepOK_record _ _ _ _
    | exact stepOK_trans (stepOK_pp _ _ _) (stepOK_record _ _ _ _)

theorem stepOK_test_inspire_with_language (r : HttpResult) (s : RunnerState) :
    StepOK s (test_inspire_with_language r s) := by
  unfold test_inspire_with_language
  cases r <;> dsimp only <;> repeat' split
  all_goals first
    | exact stepOK_record _ _ _ _
    | exact stepOK_trans (stepOK_pp _ _ _) (stepOK_record _ _ _ _)

theorem stepOK_test_inspire_missing_query (r : HttpResult) (s : RunnerState) :
    StepOK s (test_inspire_missing_query r s) := by
  unfold test_inspire_missing_query
  cases r <;> dsimp only <;> repeat' split
  all_goals exact stepOK_record _ _ _ _

theorem stepOK_test_inspire_seed_reproducibility (r1 r2 : HttpResult) (s : RunnerState) :
    StepOK s (test_inspire_seed_reproducibility r1 r2 s) := by
  unfold test_inspire_seed_reproducibility
  cases r1 <;> cases r2 <;> dsimp only <;> repeat' split
  all_goals first
    | exact stepOK_record _ _ _ _
    | exact stepOK_trans (stepOK_record _ _ _ _)
        (stepOK_trans (stepOK_pp _ _ _) (stepOK_pp _ _ _))

theorem stepOK_test_format_basic (r : HttpResult) (s : RunnerState) :
    StepOK s (test_format_basic r s) := by
  unfold test_format_basic
  cases r <;> dsimp only <;> repeat' split
  all_goals first
    | exact stepOK_record _ _ _ _
    | exact stepOK_trans (stepOK_pp _ _ _) (stepOK_record _ _ _ _)

theorem stepOK_test_format_with_constraints (r : HttpResult) (s : RunnerState) :
    StepOK s (test_format_with_constraints r s) := by
  unfold test_format_with_constraints
  cases r <;> dsimp only <;> repeat' split
  all_goals first
    | exact stepOK_record _ _ _ _
    | exact stepOK_trans (stepOK_pp _ _ _) (stepOK_record _ _ _ _)

theorem stepOK_test_format_caption_only (r : HttpResult) (s : RunnerState) :
    StepOK s (test_format_caption_only r s) := by
  unfold test_format_caption_only
  cases r <;> dsimp only <;> repeat' split
  all_goals first
    | exact stepOK_record _ _ _ _
    | exact stepOK_trans (stepOK_pp _ _ _) (stepOK_record _ _ _ _)

theorem stepOK_test_format_missing_both (r : HttpResult) (s : RunnerState) :
    StepOK s (test_format_missing_both r s) := by
  unfold test_format_missing_both
  cases r <;> dsimp only <;> repeat' split
  all_goals exact stepOK_record _ _ _ _

theorem stepOK_test_understand_no_input (r : HttpResult) (s : RunnerState) :
    StepOK s (test_understand_no_input r s) := by
  unfold test_understand_no_input
  cases r <;> dsimp only <;> repeat' split
  all_goals exact stepOK_record _ _ _ _

theorem stepOK_test_understand_file_upload (af : Option String) (op : OpenResult)
    (r : HttpResult) (s : RunnerState) :
    StepOK s (test_understand_file_upload af op r s) := by
  unfold test_understand_file_upload
  cases af <;> dsimp only <;> repeat' split
  all_goals first
    | exact stepOK_record _ _ _ _
    | exact stepOK_trans (stepOK_pp _ _ _) (stepOK_record _ _ _ _)

theorem stepOK_test_understand_audio_path (af : Option String) (r : HttpResult)
    (s : RunnerState) :
    StepOK s (test_understand_audio_path af r s) := by
  unfold test_understand_audio_path
  cases af <;> dsimp only <;> repeat' split
  all_goals first
    | exact stepOK_record _ _ _ _
    | exact stepOK_trans (stepOK_pp _ _ _) (stepOK_record _ _ _ _)

theorem stepOK_run_all (o : Oracle) (af : Option String) (s : RunnerState) :
    StepOK s (run_all o af s).2 := by
  unfold run_all
  dsimp only
  split
  · exact stepOK_test_health o.health s
  · exact stepOK_trans (stepOK_test_health o.health s)
      (stepOK_trans (stepOK_test_inspire_basic _ _)
      (stepOK_trans (stepOK_test_inspire_instrumental _ _)
      (stepOK_trans (stepOK_test_inspire_with_language _ _)
      (stepOK_trans (stepOK_test_inspire_missing_query _ _)
      (stepOK_trans (stepOK_test_inspire_seed_reproducibility _ _ _)
      (stepOK_trans (stepOK_test_format_basic _ _)
      (stepOK_trans (stepOK_test_format_with_constraints _ _)
      (stepOK_trans (stepOK_test_format_caption_only _ _)
      (stepOK_trans (stepOK_test_format_missing_both _ _)
      (stepOK_trans (stepOK_test_understand_no_input _ _)
      (stepOK_trans (stepOK_test_understand_file_upload _ _ _ _)
      (stepOK_trans (stepOK_test_understand_audio_path _ _ _)
      (stepOK_refl _)))))))))))))

/-- The exact condition under which `test_health` records a PASS:
the request returned, parsed, the HTTP status is 200 and the body is a
dict whose `code` is 200 (lines 392-395). -/
def healthRecordsPass (r : HttpResult) : Bool :=
  match r with
  | .resp 200 (.ok (.obj fields)) => dGet fields "code" == JValue.num 200
  | _ => false

theorem run_all_fst (o : Oracle) (af : Option String) (s : RunnerState) :
    (run_all o af s).1 = ((run_all o af s).2.failed == 0) := by
  unfold run_all
  dsimp only
  split
  · next h =>
      have hne : (test_health o.health s).failed ≠ 0 := Nat.pos_iff_ne_zero.mp h
      simp [hne]
  · rfl

theorem test_health_not_pass (r : HttpResult) (s : RunnerState)
    (h : healthRecordsPass r = false) :
    ∃ d, test_health r s = _record s "health: server reachable" "FAIL" d := by
  unfold test_health
  cases r with
  | connErr e => exact ⟨_, rfl⟩
  | err e => exact ⟨_, rfl⟩
  | resp code body =>
    dsimp only
    cases body with
    | error e => exact ⟨_, rfl⟩
    | ok data =>
      dsimp only
      by_cases hcode : code = 200
      · subst hcode
        rw [if_neg (show ¬(200 ≠ 200) by omega)]
        cases data with
        | obj fields =>
          dsimp only
          by_cases hget : dGet fields "code" = JValue.num 200
          · exfalso
            simp [healthRecordsPass, hget] at h
          · rw [if_neg hget]
            exact ⟨_, rfl⟩
        | null => exact ⟨_, rfl⟩
        | bool b => exact ⟨_, rfl⟩
        | num n => exact ⟨_, rfl⟩
        | str st => exact ⟨_, rfl⟩
        | arr elems => exact ⟨_, rfl⟩
      · rw [if_pos hcode]
        exact ⟨_, rfl⟩

/-- A concrete oracle on which every exchange fails to connect. -/
def downOracle : Oracle :=
  ⟨.connErr "down", .connErr "down", .connErr "down", .connErr "down",
   .connErr "down", .connErr "down", .connErr "down", .connErr "down",
   .connErr "down", .connErr "down", .connErr "down", .connErr "down",
   .ok, .connErr "down", .connErr "down"⟩

/-- Claim C1: the process exits 0 iff zero FAIL records were made during
the run; PASS and SKIP counts do not affect the exit code, and any
positive failed count yields exit code 1. -/
theorem exit_zero_iff_no_fail_records (o : Oracle) (b : String) (k af : Option String) :
    ((mainRun o b k af).1 = 0 ↔ failCount (mainRun o b k af).2.results = 0) ∧
    (0 < failCount (mainRun o b k af).2.results → (mainRun o b k af).1 = 1) := by
  obtain ⟨-, -, l, hr, -, hf, -⟩ := stepOK_run_all o af (initRunner b k)
  have hres : failCount (run_all o af (initRunner b k)).2.results
      = (run_all o af (initRunner b k)).2.failed := by
    rw [hr, hf]
    simp [initRunner, failCount]
  have h1 : (mainRun o b k af).1 = if (run_all o af (initRunner b k)).1 then 0 else 1 := rfl
  have h2 : (mainRun o b k af).2 = (run_all o af (initRunner b k)).2 := rfl
  rw [h1, h2, hres, run_all_fst]
  cases hfv : (run_all o af (initRunner b k)).2.failed with
  | zero => simp
  | succ m => simp

/-- Claim C2: the health check runs first; when it does not record PASS
(the server is unreachable, or the response is not HTTP 200 with JSON
code 200), no test of the `/lm/inspire`, `/lm/format` or
`/lm/understand` groups executes — the final state is exactly the
post-health state with its single record — and `run_all` returns
`False`, so the process exits 1. -/
theorem health_gate_aborts (o : Oracle) (b : String) (k af : Option String)
    (h : healthRecordsPass o.health = false) :
    run_all o af (initRunner b k) = (false, test_health o.health (initRunner b k)) ∧
    (run_all o af (initRunner b k)).2.results.length = 1 ∧
    (mainRun o b k af).1 = 1 := by
  obtain ⟨d, hd⟩ := test_health_not_pass o.health (initRunner b k) h
  have hfail : (test_health o.health (initRunner b k)).failed = 1 := by rw [hd]; rfl
  have habort : run_all o af (initRunner b k) = (false, test_health o.health (initRunner b k)) := by
    unfold run_all
    dsimp only
    rw [if_pos (show (test_health o.health (initRunner b k)).failed > 0 by rw [hfail]; omega)]
  refine ⟨habort, ?_, ?_⟩
  · rw [habort]
    dsimp only
    rw [hd]
    rfl
  · have hm : (mainRun o b k af).1 = if (run_all o af (initRunner b k)).1 then 0 else 1 := rfl
    rw [hm, habort]
    rfl

/-- Witness for C2 at a concrete unreachable-server oracle. -/
theorem health_gate_aborts_witness :
    healthRecordsPass downOracle.health = false ∧
    (run_all downOracle none (initRunner "http://localhost:8001" none)
        = (false, test_health downOracle.health (initRunner "http://localhost:8001" none)) ∧
      (run_all downOracle none (initRunner "http://localhost:8001" none)).2.results.length = 1 ∧
      (mainRun downOracle "http://localhost:8001" none none).1 = 1) :=
  ⟨rfl, health_gate_aborts downOracle "http://localhost:8001" none none rfl⟩

/-- Every record is counted by exactly one of the three counters. -/
theorem count_partition (l : List TestRecord) :
    passCount l + failCount l + skipCount l = l.length := by
  induction l with
  | nil => simp [passCount, failCount, skipCount]
  | cons r t ih =>
    simp only [passCount, failCount, skipCount, List.countP_cons, List.length_cons] at *
    cases h1 : r.status == "PASS" <;> cases h2 : r.status == "FAIL" <;> simp_all <;> omega

/-- Claim C10: every `_record` call appends exactly one entry to the
results log and increments exactly one counter (passed for PASS, failed
for FAIL, skipped for every other status), each counter is
non-decreasing, and at the end of every run the counters sum to the
length of the results log. -/
theorem record_bookkeeping_invariant :
    (∀ (s : RunnerState) (n st d : String),
      (_record s n st d).results = s.results ++ [⟨n, st, d⟩] ∧
      (_record s n st d).passed = (if st == "PASS" then s.passed + 1 else s.passed) ∧
      (_record s n st d).failed
        = (if st == "PASS" then s.failed else if st == "FAIL" then s.failed + 1 else s.failed) ∧
      (_record s n st d).skipped
        = (if st == "PASS" then s.skipped else if st == "FAIL" then s.skipped else s.skipped + 1) ∧
      (_record s n st d).passed + (_record s n st d).failed + (_record s n st d).skipped
        = s.passed + s.failed + s.skipped + 1 ∧
      s.passed ≤ (_record s n st d).passed ∧
      s.failed ≤ (_record s n st d).failed ∧
      s.skipped ≤ (_record s n st d).skipped) ∧
    (∀ (o : Oracle) (b : String) (k af : Option String),
      (mainRun o b k af).2.passed + (mainRun o b k af).2.failed + (mainRun o b k af).2.skipped
        = (mainRun o b k af).2.results.length) := by
  constructor
  · intro s n st d
    refine ⟨?_, ?_, ?_, ?_, ?_, ?_, ?_, ?_⟩ <;>
      cases h1 : st == "PASS" <;> cases h2 : st == "FAIL" <;>
        simp_all [_record] <;> try omega
  · intro o b k af
    obtain ⟨-, -, l, hr, hp, hf, hk⟩ := stepOK_run_all o af (initRunner b k)
    have h2 : (mainRun o b k af).2 = (run_all o af (initRunner b k)).2 := rfl
    rw [h2, hr, hp, hf, hk]
    simp [initRunner, count_partition l]

/-- Claim C5: with no audio file from the CLI, the file-upload and
audio_path tests each record SKIP (not PASS or FAIL); a SKIP record
leaves passed and failed untouched, increments only skipped, and still
appends a visible record to the results log and a line to the console
output. -/
theorem understand_skip_without_audio :
    (∀ (op : OpenResult) (r : HttpResult) (s : RunnerState),
      test_understand_file_upload none op r s
        = _record s "understand: file upload" "SKIP" "no --audio-file provided") ∧
    (∀ (r : HttpResult) (s : RunnerState),
      test_understand_audio_path none r s
        = _record s "understand: audio_path" "SKIP" "no --audio-file provided") ∧
    (∀ (s : RunnerState) (n d : String),
      (_record s n "SKIP" d).passed = s.passed ∧
      (_record s n "SKIP" d).failed = s.failed ∧
      (_record s n "SKIP" d).skipped = s.skipped + 1 ∧
      (_record s n "SKIP" d).results = s.results ++ [⟨n, "SKIP", d⟩] ∧
      (_record s n "SKIP" d).output = s.output ++ [.recordLine n "SKIP" d]) :=
  ⟨fun _ _ _ => rfl, fun _ _ => rfl, fun _ _ _ => ⟨rfl, rfl, rfl, rfl, rfl⟩⟩

/-- The traffic-policy object as the spec states it (§6): transcribed
from the spec text, to be compared with `policyObj` built from the
source. -/
def specTrafficPolicy (user password : String) : JValue :=
  .obj [("on_http_request", .arr [
    .obj [("actions", .arr [
      .obj [("type", .str "basic-auth"),
            ("config", .obj [("credentials", .arr [
              .str (user ++ ":" ++ password)])])]])]])]

/-- Claim C6: with both `AUTH_USERNAME` and `AUTH_PASSWORD` absent, the
launcher passes `traffic_policy = None` to `ngrok.forward` and prints
the unprotected-API warning — it never proceeds silently. -/
theorem launcher_unauthenticated_warns (ngrok_authtoken ngrok_domain : Option String) :
    (launcherRun none none ngrok_authtoken ngrok_domain).1.traffic_policy = none ∧
    (launcherRun none none ngrok_authtoken ngrok_domain).1.port = 8001 ∧
    unprotectedWarning ∈ (launcherRun none none ngrok_authtoken ngrok_domain).2 :=
  ⟨rfl, rfl, List.mem_singleton.mpr rfl⟩

/-- Claim C7: with both credentials set and non-empty, the policy passed
to `ngrok.forward` is the JSON serialization of exactly the object
`{"on_http_request": [{"actions": [{"type": "basic-auth", "config":
{"credentials": ["<user>:<password>"]}}]}]}` stated by the spec, with
the colon-joined credential pair. -/
theorem launcher_policy_shape (u p : String) (ngrok_authtoken ngrok_domain : Option String)
    (hu : u.isEmpty = false) (hp : p.isEmpty = false) :
    (launcherRun (some u) (some p) ngrok_authtoken ngrok_domain).1.traffic_policy
      = some (jsonDumps (specTrafficPolicy u p)) ∧
    policyObj u p = specTrafficPolicy u p := by
  constructor
  · unfold launcherRun
    dsimp only
    rw [if_pos (show (!u.isEmpty && !p.isEmpty) = true by rw [hu, hp]; rfl)]
    rfl
  · rfl

/-- Witness for C7 at concrete credentials. -/
theorem launcher_policy_shape_witness :
    "admin".isEmpty = false ∧ "secret1".isEmpty = false ∧
    ((launcherRun (some "admin") (some "secret1") none none).1.traffic_policy
        = some (jsonDumps (specTrafficPolicy "admin" "secret1")) ∧
      policyObj "admin" "secret1" = specTrafficPolicy "admin" "secret1") :=
  ⟨rfl, rfl, launcher_policy_shape "admin" "secret1" none none rfl rfl⟩

/-- Claim C9: if either credential is missing or empty (in particular
when exactly one is supplied), the launcher behaves exactly as in the
no-credential configuration: policy `None` passed to `ngrok.forward`
and the unprotected-API warning printed. -/
theorem launcher_partial_credentials (u p ngrok_authtoken ngrok_domain : Option String)
    (h : truthyOpt u = false ∨ truthyOpt p = false) :
    launcherRun u p ngrok_authtoken ngrok_domain
      = (⟨8001, ngrok_authtoken, ngrok_domain, none⟩, [unprotectedWarning]) ∧
    launcherRun u p ngrok_authtoken ngrok_domain
      = launcherRun none none ngrok_authtoken ngrok_domain := by
  have hnone : launcherRun u p ngrok_authtoken ngrok_domain
      = (⟨8001, ngrok_authtoken, ngrok_domain, none⟩, [unprotectedWarning]) := by
    match u, p with
    | none, _ => rfl
    | some us, none => rfl
    | some us, some ps =>
      unfold launcherRun
      dsimp only
      rw [if_neg]
      intro hcontra
      simp only [truthyOpt] at h
      rcases h with h | h <;> simp_all
  exact ⟨hnone, hnone.trans rfl⟩

/-- Witness for C9 with only a username supplied. -/
theorem launcher_partial_credentials_witness :
    (truthyOpt (some "admin") = false ∨ truthyOpt none = false) ∧
    (launcherRun (some "admin") none none none
        = (⟨8001, none, none, none⟩, [unprotectedWarning]) ∧
      launcherRun (some "admin") none none none = launcherRun none none none none) :=
  ⟨Or.inr rfl, launcher_partial_credentials (some "admin") none none none (Or.inr rfl)⟩

/-- Claim C8: every HTTP call of the runner carries an explicit timeout;
the quick validation calls use 30 s, the generation calls 120 s, the
audio-analysis calls 300 s; and a call that raises (a timeout included)
makes that one test record exactly one FAIL, with no retry — the test
performs no further exchange. -/
theorem request_timeouts (b : String) :
    ((healthRequest b).timeout.isSome ∧ (inspireBasicRequest b).timeout.isSome ∧
     (inspireInstrumentalRequest b).timeout.isSome ∧ (inspireLanguageRequest b).timeout.isSome ∧
     (inspireMissingQueryRequest b).timeout.isSome ∧ (inspireSeedRequest b).timeout.isSome ∧
     (formatBasicRequest b).timeout.isSome ∧ (formatConstraintsRequest b).timeout.isSome ∧
     (formatCaptionOnlyRequest b).timeout.isSome ∧ (formatMissingBothRequest b).timeout.isSome ∧
     (understandNoInputRequest b).timeout.isSome ∧ (understandUploadRequest b).timeout.isSome ∧
     (understandPathRequest b).timeout.isSome) ∧
    ((inspireMissingQueryRequest b).timeout = some 30 ∧
     (formatMissingBothRequest b).timeout = some 30 ∧
     (understandNoInputRequest b).timeout = some 30) ∧
    ((inspireBasicRequest b).timeout = some 120 ∧
     (inspireInstrumentalRequest b).timeout = some 120 ∧
     (inspireLanguageRequest b).timeout = some 120 ∧
     (inspireSeedRequest b).timeout = some 120 ∧
     (formatBasicRequest b).timeout = some 120 ∧
     (formatConstraintsRequest b).timeout = some 120 ∧
     (formatCaptionOnlyRequest b).timeout = some 120) ∧
    ((understandUploadRequest b).timeout = some 300 ∧
     (understandPathRequest b).timeout = some 300) ∧
    (∀ (e : String) (s : RunnerState),
      test_health (.err e) s = _record s "health: server reachable" "FAIL" e ∧
      test_inspire_basic (.err e) s = _record s "inspire: basic query" "FAIL" e ∧
      test_inspire_instrumental (.err e) s = _record s "inspire: instrumental" "FAIL" e ∧
      test_inspire_with_language (.err e) s = _record s "inspire: vocal_language=ja" "FAIL" e ∧
      test_inspire_missing_query (.err e) s
        = _record s "inspire: missing query (expect 400)" "FAIL" e ∧
      (∀ r2 : HttpResult, test_inspire_seed_reproducibility (.err e) r2 s
        = _record s "inspire: seed reproducibility" "FAIL" e) ∧
      (∀ c : Nat, ∀ body : Except String JValue,
        test_inspire_seed_reproducibility (.resp c body) (.err e) s
          = _record s "inspire: seed reproducibility" "FAIL" e) ∧
      test_format_basic (.err e) s = _record s "format: basic" "FAIL" e ∧
      test_format_with_constraints (.err e) s = _record s "format: with constraints" "FAIL" e ∧
      test_format_caption_only (.err e) s = _record s "format: caption only" "FAIL" e ∧
      test_format_missing_both (.err e) s
        = _record s "format: missing both (expect 400)" "FAIL" e ∧
      test_understand_no_input (.err e) s
        = _record s "understand: no input (expect 400)" "FAIL" e ∧
      test_understand_file_upload (some "sample.wav") .ok (.err e) s
        = _record s "understand: file upload" "FAIL" e ∧
      test_understand_audio_path (some "sample.wav") (.err e) s
        = _record s "understand: audio_path" "FAIL" e) :=
  ⟨⟨rfl, rfl, rfl, rfl, rfl, rfl, rfl, rfl, rfl, rfl, rfl, rfl, rfl⟩,
   ⟨rfl, rfl, rfl⟩,
   ⟨rfl, rfl, rfl, rfl, rfl, rfl, rfl⟩,
   ⟨rfl, rfl⟩,
   fun _e _s =>
     ⟨rfl, rfl, rfl, rfl, rfl, fun _r2 => rfl, fun _c _body => rfl,
      rfl, rfl, rfl, rfl, rfl, rfl, rfl⟩⟩

/-- Claim C3: in the seed-reproducibility test, when both same-seed
calls return `code` 200 but the caption or lyrics texts differ, the test
records exactly one FAIL with the explanatory detail string and
pretty-prints both payloads for diffing — no exception path is taken;
when both texts match, it records a PASS. -/
theorem seed_divergence_is_soft (st1 st2 : Nat) (f1 f2 df1 df2 : List (String × JValue))
    (s : RunnerState)
    (h1 : dGet f1 "code" = JValue.num 200) (h2 : dGet f2 "code" = JValue.num 200)
    (hd1 : f1.lookup "data" = some (JValue.obj df1))
    (hd2 : f2.lookup "data" = some (JValue.obj df2)) :
    (dGetD df1 "caption" (JValue.str "") = dGetD df2 "caption" (JValue.str "") ∧
     dGetD df1 "lyrics" (JValue.str "") = dGetD df2 "lyrics" (JValue.str "") →
      test_inspire_seed_reproducibility (.resp st1 (.ok (.obj f1))) (.resp st2 (.ok (.obj f2))) s
        = _record s "inspire: seed reproducibility" "PASS" "captions and lyrics match") ∧
    (dGetD df1 "caption" (JValue.str "") ≠ dGetD df2 "caption" (JValue.str "") ∨
     dGetD df1 "lyrics" (JValue.str "") ≠ dGetD df2 "lyrics" (JValue.str "") →
      test_inspire_seed_reproducibility (.resp st1 (.ok (.obj f1))) (.resp st2 (.ok (.obj f2))) s
        = _pp (_pp (_record s "inspire: seed reproducibility" "FAIL"
            ("outputs differ (may be expected with vllm backend). caption match="
              ++ pyBool (beqJ (dGetD df1 "caption" (JValue.str "")) (dGetD df2 "caption" (JValue.str "")))
              ++ ", lyrics match="
              ++ pyBool (beqJ (dGetD df1 "lyrics" (JValue.str "")) (dGetD df2 "lyrics" (JValue.str "")))))
            ("inspire: seed reproducibility — call 1") (JValue.obj df1))
            ("inspire: seed reproducibility — call 2") (JValue.obj df2)) := by
  unfold test_inspire_seed_reproducibility
  dsimp only
  rw [if_neg (show ¬(dGet f1 "code" ≠ JValue.num 200) by simp [h1])]
  try dsimp only
  rw [if_neg (show ¬(dGet f2 "code" ≠ JValue.num 200) by simp [h2])]
  try dsimp only
  rw [hd1]
  try dsimp only
  rw [hd2]
  try dsimp only
  constructor
  · rintro ⟨hc, hl⟩
    rw [if_pos (show (beqJ (dGetD df1 "caption" (JValue.str "")) (dGetD df2 "caption" (JValue.str ""))
          && beqJ (dGetD df1 "lyrics" (JValue.str "")) (dGetD df2 "lyrics" (JValue.str ""))) = true by
        rw [(beqJ_eq _ _).mpr hc, (beqJ_eq _ _).mpr hl]
        rfl)]
  · intro hdiff
    rw [if_neg (show ¬((beqJ (dGetD df1 "caption" (JValue.str "")) (dGetD df2 "caption" (JValue.str ""))
          && beqJ (dGetD df1 "lyrics" (JValue.str "")) (dGetD df2 "lyrics" (JValue.str ""))) = true) by
        intro hcontra
        rw [Bool.and_eq_true] at hcontra
        rcases hcontra with ⟨hc, hl⟩
        rcases hdiff with h | h
        · exact h ((beqJ_eq _ _).mp hc)
        · exact h ((beqJ_eq _ _).mp hl))]
    rfl

/-- Witness for C3: two concrete code-200 responses whose captions
differ; the test records the soft FAIL and pretty-prints both payloads. -/
theorem seed_divergence_is_soft_witness :
    (dGetD [("caption", JValue.str "a"), ("lyrics", JValue.str "x")] "caption" (JValue.str "")
       ≠ dGetD [("caption", JValue.str "b"), ("lyrics", JValue.str "x")] "caption" (JValue.str "")) ∧
    test_inspire_seed_reproducibility
        (.resp 200 (.ok (.obj [("code", JValue.num 200),
          ("data", JValue.obj [("caption", JValue.str "a"), ("lyrics", JValue.str "x")])])))
        (.resp 200 (.ok (.obj [("code", JValue.num 200),
          ("data", JValue.obj [("caption", JValue.str "b"), ("lyrics", JValue.str "x")])])))
        (initRunner "http://localhost:8001" none)
      = _pp (_pp (_record (initRunner "http://localhost:8001" none)
            "inspire: seed reproducibility" "FAIL"
            "outputs differ (may be expected with vllm backend). caption match=False, lyrics match=True")
          "inspire: seed reproducibility — call 1"
          (JValue.obj [("caption", JValue.str "a"), ("lyrics", JValue.str "x")]))
          "inspire: seed reproducibility — call 2"
          (JValue.obj [("caption", JValue.str "b"), ("lyrics", JValue.str "x")]) := by
  constructor
  · decide
  · rw [(seed_divergence_is_soft 200 200
      [("code", JValue.num 200),
        ("data", JValue.obj [("caption", JValue.str "a"), ("lyrics", JValue.str "x")])]
      [("code", JValue.num 200),
        ("data", JValue.obj [("caption", JValue.str "b"), ("lyrics", JValue.str "x")])]
      [("caption", JValue.str "a"), ("lyrics", JValue.str "x")]
      [("caption", JValue.str "b"), ("lyrics", JValue.str "x")]
      (initRunner "http://localhost:8001" none)
      rfl rfl rfl rfl).2 (Or.inl (by decide))]
    rfl

/-- Counterexample to claim C4 as stated: a connection error with text
"boom" in the health check is recorded as a FAIL whose detail is the
fixed message naming the base URL — not the exception's textual
description. -/
theorem exception_detail_counterexample :
    (test_health (.connErr "boom") (initRunner "http://localhost:8001" none)).results
      = [⟨"health: server reachable", "FAIL", "cannot connect to http://localhost:8001"⟩] ∧
    "cannot connect to http://localhost:8001" ≠ "boom" :=
  ⟨by decide, by decide⟩

/-- Claim C4 (amended): every exception raised during a test's HTTP
exchange, JSON parsing or assertions is caught inside that test and
converted into exactly one FAIL record, and no test method propagates an
exception; the detail is the exception's textual description, except
that a connection error in the health check yields the fixed message
naming the base URL, and a missing audio file in the upload test yields
the fixed message naming the path. -/
theorem tests_catch_all_exceptions (af : String) (haf : af.isEmpty = false) :
    ∀ (e : String) (c : Nat) (s : RunnerState) (r2 : HttpResult) (body : Except String JValue),
      (test_health (.err e) s = _record s "health: server reachable" "FAIL" e ∧
       test_health (.connErr e) s
         = _record s "health: server reachable" "FAIL" ("cannot connect to " ++ s.base_url) ∧
       test_health (.resp c (.error e)) s = _record s "health: server reachable" "FAIL" e) ∧
      (test_inspire_basic (.err e) s = _record s "inspire: basic query" "FAIL" e ∧
       test_inspire_basic (.connErr e) s = _record s "inspire: basic query" "FAIL" e ∧
       test_inspire_basic (.resp c (.error e)) s = _record s "inspire: basic query" "FAIL" e) ∧
      (test_inspire_instrumental (.err e) s = _record s "inspire: instrumental" "FAIL" e ∧
       test_inspire_instrumental (.connErr e) s = _record s "inspire: instrumental" "FAIL" e ∧
       test_inspire_instrumental (.resp c (.error e)) s
         = _record s "inspire: instrumental" "FAIL" e) ∧
      (test_inspire_with_language (.err e) s = _record s "inspire: vocal_language=ja" "FAIL" e ∧
       test_inspire_with_language (.connErr e) s = _record s "inspire: vocal_language=ja" "FAIL" e ∧
       test_inspire_with_language (.resp c (.error e)) s
         = _record s "inspire: vocal_language=ja" "FAIL" e) ∧
      (test_inspire_missing_query (.err e) s
         = _record s "inspire: missing query (expect 400)" "FAIL" e ∧
       test_inspire_missing_query (.connErr e) s
         = _record s "inspire: missing query (expect 400)" "FAIL" e ∧
       test_inspire_missing_query (.resp c (.error e)) s
         = _record s "inspire: missing query (expect 400)" "FAIL" e) ∧
      (test_inspire_seed_reproducibility (.err e) r2 s
         = _record s "inspire: seed reproducibility" "FAIL" e ∧
       test_inspire_seed_reproducibility (.connErr e) r2 s
         = _record s "inspire: seed reproducibility" "FAIL" e ∧
       test_inspire_seed_reproducibility (.resp c body) (.err e) s
         = _record s "inspire: seed reproducibility" "FAIL" e ∧
       test_inspire_seed_reproducibility (.resp c body) (.connErr e) s
         = _record s "inspire: seed reproducibility" "FAIL" e ∧
       test_inspire_seed_reproducibility (.resp c (.error e)) (.resp c body) s
         = _record s "inspire: seed reproducibility" "FAIL" e ∧
       test_inspire_seed_reproducibility (.resp c (.ok (.obj []))) (.resp c (.error e)) s
         = _record s "inspire: seed reproducibility" "FAIL" e) ∧
      (test_format_basic (.err e) s = _record s "format: basic" "FAIL" e ∧
       test_format_basic (.connErr e) s = _record s "format: basic" "FAIL" e ∧
       test_format_basic (.resp c (.error e)) s = _record s "format: basic" "FAIL" e) ∧
      (test_format_with_constraints (.err e) s = _record s "format: with constraints" "FAIL" e ∧
       test_format_with_constraints (.connErr e) s
         = _record s "format: with constraints" "FAIL" e ∧
       test_format_with_constraints (.resp c (.error e)) s
         = _record s "format: with constraints" "FAIL" e) ∧
      (test_format_caption_only (.err e) s = _record s "format: caption only" "FAIL" e ∧
       test_format_caption_only (.connErr e) s = _record s "format: caption only" "FAIL" e ∧
       test_format_caption_only (.resp c (.error e)) s
         = _record s "format: caption only" "FAIL" e) ∧
      (test_format_missing_both (.err e) s
         = _record s "format: missing both (expect 400)" "FAIL" e ∧
       test_format_missing_both (.connErr e) s
         = _record s "format: missing both (expect 400)" "FAIL" e ∧
       test_format_missing_both (.resp c (.error e)) s
         = _record s "format: missing both (expect 400)" "FAIL" e) ∧
      (test_understand_no_input (.err e) s
         = _record s "understand: no input (expect 400)" "FAIL" e ∧
       test_understand_no_input (.connErr e) s
         = _record s "understand: no input (expect 400)" "FAIL" e ∧
       test_understand_no_input (.resp c (.error e)) s
         = _record s "understand: no input (expect 400)" "FAIL" e) ∧
      (test_understand_file_upload (some af) .notFound (.err e) s
         = _record s "understand: file upload" "FAIL" ("audio file not found: " ++ af) ∧
       test_understand_file_upload (some af) (.err e) (.connErr e) s
         = _record s "understand: file upload" "FAIL" e ∧
       test_understand_file_upload (some af) .ok (.err e) s
         = _record s "understand: file upload" "FAIL" e ∧
       test_understand_file_upload (some af) .ok (.connErr e) s
         = _record s "understand: file upload" "FAIL" e ∧
       test_understand_file_upload (some af) .ok (.resp c (.error e)) s
         = _record s "understand: file upload" "FAIL" e) ∧
      (test_understand_audio_path (some af) (.err e) s
         = _record s "understand: audio_path" "FAIL" e ∧
       test_understand_audio_path (some af) (.connErr e) s
         = _record s "understand: audio_path" "FAIL" e ∧
       test_understand_audio_path (some af) (.resp c (.error e)) s
         = _record s "understand: audio_path" "FAIL" e) ∧
      (test_inspire_basic
          (.resp 200 (.ok (.obj [("code", JValue.num 200), ("data", JValue.obj [])]))) s
         = _record s "inspire: basic query" "FAIL" "missing caption" ∧
       test_inspire_basic
          (.resp 200 (.ok (.obj [("code", JValue.num 200),
            ("data", JValue.obj [("caption", JValue.str "c")])]))) s
         = _record s "inspire: basic query" "FAIL" "missing lyrics key" ∧
       test_inspire_basic (.resp 200 (.ok (.obj [("code", JValue.num 200)]))) s
         = _record s "inspire: basic query" "FAIL" "\x27data\x27" ∧
       test_inspire_instrumental (.resp 200 (.ok (.arr []))) s
         = _record s "inspire: instrumental" "FAIL" (attrErrorGet (.arr []))) := by
  intro e c s r2 body
  have hif : ∀ (op : OpenResult) (r : HttpResult),
      test_understand_file_upload (some af) op r s
        = match op with
          | .notFound => _record s "understand: file upload" "FAIL" ("audio file not found: " ++ af)
          | .err msg => _record s "understand: file upload" "FAIL" msg
          | .ok =>
            match r with
            | .connErr msg | .err msg => _record s "understand: file upload" "FAIL" msg
            | .resp sc b =>
              match b with
              | .error msg => _record s "understand: file upload" "FAIL" msg
              | .ok data =>
                match data with
                | .obj fields =>
                  if dGet fields "code" ≠ JValue.num 200 then
                    _record s "understand: file upload" "FAIL"
                      ("code=" ++ pyStr (dGet fields "code") ++ ", error=" ++ pyStr (dGet fields "error"))
                  else
                    match fields.lookup "data" with
                    | none => _record s "understand: file upload" "FAIL" "\x27data\x27"
                    | some d =>
                      match d with
                      | .obj df =>
                        if !pyTruthy (dGet df "caption") then
                          _record s "understand: file upload" "FAIL" "missing caption"
                        else
                          _record (_pp s "understand: file upload" d) "understand: file upload" "PASS" ""
                      | j => _record s "understand: file upload" "FAIL" (attrErrorGet j)
                | j => _record s "understand: file upload" "FAIL" (attrErrorGet j) := by
    intro op r
    unfold test_understand_file_upload
    dsimp only
    rw [if_neg (show ¬(af.isEmpty = true) by rw [haf]; simp)]
  have hip : ∀ (r : HttpResult),
      test_understand_audio_path (some af) r s
        = match r with
          | .connErr msg | .err msg => _record s "understand: audio_path" "FAIL" msg
          | .resp sc b =>
            match b with
            | .error msg => _record s "understand: audio_path" "FAIL" msg
            | .ok data =>
              match data with
              | .obj fields =>
                if dGet fields "code" ≠ JValue.num 200 then
                  _record s "understand: audio_path" "FAIL"
                    ("code=" ++ pyStr (dGet fields "code") ++ ", error=" ++ pyStr (dGet fields "error"))
                else
                  match fields.lookup "data" with
                  | none => _record s "understand: audio_path" "FAIL" "\x27data\x27"
                  | some d => _record (_pp s "understand: audio_path" d) "understand: audio_path" "PASS" ""
              | j => _record s "understand: audio_path" "FAIL" (attrErrorGet j) := by
    intro r
    unfold test_understand_audio_path
    dsimp only
    rw [if_neg (show ¬(af.isEmpty = true) by rw [haf]; simp)]
  refine ⟨⟨rfl, rfl, rfl⟩, ⟨rfl, rfl, rfl⟩, ⟨rfl, rfl, rfl⟩, ⟨rfl, rfl, rfl⟩, ⟨rfl, rfl, rfl⟩,
    ⟨rfl, rfl, rfl, rfl, rfl, rfl⟩, ⟨rfl, rfl, rfl⟩, ⟨rfl, rfl, rfl⟩, ⟨rfl, rfl, rfl⟩,
    ⟨rfl, rfl, rfl⟩, ⟨rfl, rfl, rfl⟩, ⟨?_, ?_, ?_, ?_, ?_⟩, ⟨?_, ?_, ?_⟩, ⟨rfl, rfl, rfl, rfl⟩⟩
  · rw [hif .notFound (.err e)]
  · rw [hif (.err e) (.connErr e)]
  · rw [hif .ok (.err e)]
  · rw [hif .ok (.connErr e)]
  · rw [hif .ok (.resp c (.error e))]
  · rw [hip (.err e)]
  · rw [hip (.connErr e)]
  · rw [hip (.resp c (.error e))]

/-- Witness for the amended C4 at a concrete audio path and timeout
exception. -/
theorem tests_catch_all_exceptions_witness :
    "sample.wav".isEmpty = false ∧
    test_understand_audio_path (some "sample.wav") (.err "timed out")
        (initRunner "http://localhost:8001" none)
      = _record (initRunner "http://localhost:8001" none)
          "understand: audio_path" "FAIL" "timed out" := by
  have h := tests_catch_all_exceptions "sample.wav" (by decide)
  exact ⟨by decide,
    (h "timed out" 0 (initRunner "http://localhost:8001" none)
        (.connErr "x") (.error "x")).2.2.2.2.2.2.2.2.2.2.2.2.1.1⟩
